import Mathlib

/-!
Shallow embedding of the contentBot video-generation core, together with
proofs checking the natural-language specification against the code.

Components embedded (file references are into the Python source tree):
* `src/src/generation/subtitle_generator.py` — the Timing Allocator
  (`SubtitleGenerator.generate_subtitles`, `_clean_text`).
* `src/src/utils/job_tracker.py` — the Job Tracker
  (`Job`, `InMemoryJobTracker`, `FileBasedJobTracker`).
* `src/src/generation/tts_elevenlabs.py` — the Content-Addressed Cache
  (`ElevenLabsTTS._get_cache_key`, `_get_cached_audio`, `_cache_audio`,
  `generate_audio`).
* `src/src/generation/video_composer.py` — the Background Normalizer and
  caption placement (`VideoComposer._prepare_background`, `_add_subtitles`).

Machine reals (Python floats) are modelled as rationals `ℚ`; dictionaries
as association lists or function maps; timestamps are explicit `now`
parameters; fallible operations return `Option`.
-/

namespace ContentBot

/-! ## Python string primitives

The embedding works on `List Char` with structural recursion so that all
definitions reduce in the kernel.
-/

/-- Python `str.split()` with no separator: split on runs of whitespace,
dropping empty tokens.  The accumulator holds the current in-progress word
reversed. -/
def pySplitAux : List Char → List Char → List String
  | acc, [] => if acc.isEmpty then [] else [String.mk acc.reverse]
  | acc, c :: cs =>
    if c.isWhitespace then
      if acc.isEmpty then pySplitAux [] cs
      else String.mk acc.reverse :: pySplitAux [] cs
    else pySplitAux (c :: acc) cs

/-- Python `text.split()` (whitespace tokenisation, empty tokens dropped). -/
def pySplit (s : String) : List String :=
  pySplitAux [] s.data

/-- One step of `re.sub(r"\s+", " ", text)`: every maximal whitespace run
becomes a single space character. -/
def collapseWs : List Char → List Char
  | [] => []
  | c :: cs =>
    if c.isWhitespace then
      match cs with
      | [] => [' ']
      | c2 :: _ => if c2.isWhitespace then collapseWs cs else ' ' :: collapseWs cs
    else c :: collapseWs cs

/-- Python `text.replace("\n", " ")` — the pattern is the single newline
character, so the replacement is a character map. -/
def replaceNewline (l : List Char) : List Char :=
  l.map (fun c => if c = '\n' then ' ' else c)

/-- Python `text.strip()`: drop leading and trailing whitespace. -/
def pyStrip (l : List Char) : List Char :=
  ((l.dropWhile Char.isWhitespace).reverse.dropWhile Char.isWhitespace).reverse

/-- Embeds `SubtitleGenerator._clean_text` (subtitle_generator.py lines 92-105):
`re.sub(r"\s+", " ", text)`, then `text.replace("\n", " ")`, then
`text.strip()`. -/
def clean_text (text : String) : String :=
  String.mk (pyStrip (replaceNewline (collapseWs text.data)))

/-- Python `" ".join(words)`. -/
def join_with_space : List String → String
  | [] => ""
  | [w] => w
  | w :: ws => w ++ " " ++ join_with_space ws

/-! ## Timing Allocator (`SubtitleGenerator.generate_subtitles`) -/

/-- Embeds `SubtitleGenerator.generate_subtitles` (subtitle_generator.py lines
18-60, without the optional SRT export).  The Python loop
`for i in range(0, total_words, words_per_chunk)` is transcribed as a map
over the chunk indices `j`, with `i = j * words_per_chunk`; `range`
with a positive step `k` over `[0, n)` has exactly `(n + k - 1) / k`
elements.  A chunk size of `0` raises `ValueError` in Python and is never
used; theorems assume `0 < words_per_chunk`. -/
def generate_subtitles (words_per_chunk : ℕ) (text : String)
    (audio_duration : ℚ) : List (ℚ × ℚ × String) :=
  let words := pySplit (clean_text text)
  let total_words := words.length
  if total_words = 0 then []
  else
    let time_per_word : ℚ := audio_duration / total_words
    (List.range ((total_words + words_per_chunk - 1) / words_per_chunk)).map
      (fun j =>
        let i := j * words_per_chunk
        let chunk_words := (words.drop i).take words_per_chunk
        ((i : ℚ) * time_per_word,
         ((i + chunk_words.length : ℕ) : ℚ) * time_per_word,
         join_with_space chunk_words))

/-- The word chunks visited by the Python loop
`for i in range(0, total_words, words_per_chunk): words[i : i + words_per_chunk]`
(subtitle_generator.py lines 46-47), as a list of word lists. -/
def word_chunks (k : ℕ) (ws : List String) : List (List String) :=
  (List.range ((ws.length + k - 1) / k)).map (fun j => (ws.drop (j * k)).take k)

/-- The per-word time slice computed at subtitle_generator.py line 42:
`time_per_word = audio_duration / total_words`, where the word list comes
from `self._clean_text(text).split()` at line 35. -/
def time_per_word (text : String) (audio_duration : ℚ) : ℚ :=
  audio_duration / ((pySplit (clean_text text)).length : ℚ)

/-- Modelled from the spec: detection of a long pause marker (an ellipsis
`...` in the raw text).  The source contains no such detection; this
definition only serves to state the specification claim about pause
handling. -/
def hasEllipsisChars : List Char → Bool
  | '.' :: '.' :: '.' :: _ => true
  | _ :: rest => hasEllipsisChars rest
  | [] => false

/-- Modelled from the spec: a text contains a long pause marker when the
substring `...` occurs in it. -/
def has_long_pause_marker (text : String) : Bool :=
  hasEllipsisChars text.data

/-! ## Job Tracker (`src/src/utils/job_tracker.py`)

A job store (the in-memory `dict` of `InMemoryJobTracker`, or the
one-JSON-file-per-job directory of `FileBasedJobTracker`) is a map from
job id to `Job`.  `time.time()` is an explicit `now : ℚ` argument. -/

/-- Opaque string-keyed dictionary (`result` and `metadata` payloads). -/
abbrev Dict := List (String × String)

/-- Constant `JobStatus.PENDING` (job_tracker.py line 19). -/
def JobStatus.PENDING : String := "pending"

/-- Constant `JobStatus.RUNNING` (line 20). -/
def JobStatus.RUNNING : String := "running"

/-- Constant `JobStatus.COMPLETED` (line 21). -/
def JobStatus.COMPLETED : String := "completed"

/-- Constant `JobStatus.FAILED` (line 22). -/
def JobStatus.FAILED : String := "failed"

/-- Constant `JobStatus.CANCELLED` (line 23). -/
def JobStatus.CANCELLED : String := "cancelled"

/-- The `Job` record (job_tracker.py lines 35-55). -/
structure Job where
  job_id : String
  job_type : String
  status : String
  progress : ℚ
  result : Dict
  error : Option String
  metadata : Dict
  created_at : ℚ
  updated_at : ℚ
deriving DecidableEq, Repr

/-- Embeds `Job.__init__` with its defaults (lines 37-55): status `pending`,
progress `0.0`, `result or {}`, `error` absent, `metadata or {}`, and
`created_at = updated_at = time.time()`. -/
def Job.new (now : ℚ) (job_id job_type : String) (metadata : Option Dict) : Job :=
  { job_id := job_id
    job_type := job_type
    status := JobStatus.PENDING
    progress := 0
    result := []
    error := none
    metadata := metadata.getD []
    created_at := now
    updated_at := now }

/-- A job store: the `self.jobs` dict of `InMemoryJobTracker`, or the
`{job_id}.json` files of `FileBasedJobTracker`. -/
abbrev JobStore := String → Option Job

/-- The keyword updates accepted by `update_job(job_id, **updates)`.
Keys that are not `Job` attributes are ignored by the `hasattr` check in
the source, so only attribute-valued updates are modelled; `none` means
the keyword was not passed. -/
structure JobUpdates where
  status : Option String
  progress : Option ℚ
  result : Option Dict
  error : Option (Option String)
deriving DecidableEq, Repr

/-- The `setattr` loop shared by both backends (lines 155-159 and
235-239): each passed field overwrites the stored one, then `updated_at`
is refreshed.  There is no status or progress validation. -/
def applyUpdates (j : Job) (u : JobUpdates) (now : ℚ) : Job :=
  { j with
    status := u.status.getD j.status
    progress := u.progress.getD j.progress
    result := u.result.getD j.result
    error := u.error.getD j.error
    updated_at := now }

/-- Embeds `InMemoryJobTracker.create_job` (lines 142-145): builds a fresh `Job`
and stores it under `job_id`, unconditionally overwriting any existing
entry (`self.jobs[job_id] = job`). -/
def create_job (T : JobStore) (now : ℚ) (job_id job_type : String)
    (metadata : Option Dict) : Job × JobStore :=
  let job := Job.new now job_id job_type metadata
  (job, fun k => if k = job_id then some job else T k)

/-- Embeds `InMemoryJobTracker.get_job` (lines 147-148). -/
def get_job (T : JobStore) (job_id : String) : Option Job :=
  T job_id

/-- Embeds `InMemoryJobTracker.update_job` (lines 150-160): missing id returns
`None`; otherwise the updates are applied via `setattr` with no state
validation and the mutated job is returned. -/
def update_job (T : JobStore) (now : ℚ) (job_id : String) (u : JobUpdates) :
    Option Job × JobStore :=
  match T job_id with
  | none => (none, T)
  | some j =>
    let j2 := applyUpdates j u now
    (some j2, fun k => if k = job_id then some j2 else T k)

/-- Embeds `FileBasedJobTracker.create_job` (lines 212-215): builds a fresh
`Job` and `_save_job` writes `{job_id}.json`, overwriting any existing
file for that id. -/
def fb_create_job (S : JobStore) (now : ℚ) (job_id job_type : String)
    (metadata : Option Dict) : Job × JobStore :=
  let job := Job.new now job_id job_type metadata
  (job, fun k => if k = job_id then some job else S k)

/-- Embeds `FileBasedJobTracker.get_job` (lines 217-228): load the JSON file if
present.  `Job.from_dict (job.to_dict)` restores every modelled field, so
the round trip is the identity here. -/
def fb_get_job (S : JobStore) (job_id : String) : Option Job :=
  S job_id

/-- Embeds `FileBasedJobTracker.update_job` (lines 230-241): load, apply the
same `setattr` loop, save. -/
def fb_update_job (S : JobStore) (now : ℚ) (job_id : String) (u : JobUpdates) :
    Option Job × JobStore :=
  match fb_get_job S job_id with
  | none => (none, S)
  | some j =>
    let j2 := applyUpdates j u now
    (some j2, fun k => if k = job_id then some j2 else S k)

/-! ## Content-Addressed Cache (`src/src/generation/tts_elevenlabs.py`)

`_get_cache_key` hashes the canonical JSON of `(text, voice, settings)`
with md5; the hash is modelled by the tuple itself (an injective stand-in,
ignoring md5 collisions, exactly the identification the spec makes:
identical requests collide, differing ones do not).  The filesystem is the
set of existing audio paths; the external synthesis call is modelled by
its observable effect — a file appears at the output path — plus a
counter of synthesis invocations. -/

/-- The synthesis settings hashed into the key (tts_elevenlabs.py lines
154-159): stability, similarity_boost, style, model_id. -/
abbrev Settings := ℚ × ℚ × ℚ × String

/-- The md5 cache key of the canonical serialization of
`(text, voice, settings)` (lines 72-80), modelled injectively by the
tuple itself. -/
abbrev CacheKey := String × String × Settings

/-- Embeds `_get_cache_key` (lines 72-80). -/
def get_cache_key (text voice : String) (settings : Settings) : CacheKey :=
  (text, voice, settings)

/-- An audio file path: either the cache-directory file
`cache/elevenlabs/{cache_key}.mp3` chosen at line 169, or a
caller-supplied `output_path`. -/
inductive AudioPath where
  | cacheFile (key : CacheKey)
  | userFile (p : String)
deriving DecidableEq, Repr

/-- A cache index entry (lines 99-104): `{path, voice, text_preview,
created_at}` with `text_preview = text[:100]`. -/
structure CacheEntry where
  path : AudioPath
  voice : String
  text_preview : String
  created_at : ℚ
deriving DecidableEq, Repr

/-- Python `text[:100]`. -/
def text_preview_of (text : String) : String :=
  String.mk (text.data.take 100)

/-- The mutable state touched by `ElevenLabsTTS`: the cache index
`self.cache`, the set of files existing on disk, and the number of
synthesis calls made so far (`client.text_to_speech.convert`). -/
structure TTSState where
  cache : CacheKey → Option CacheEntry
  files : AudioPath → Bool
  synth_count : ℕ

/-- Embeds `_get_cached_audio` (lines 82-94): a hit returns the stored path if
the file still exists; a stale entry (file gone) is deleted from the
index and the lookup misses; an unknown key misses without touching the
filesystem.  The returned `Bool` records whether the filesystem was
consulted (`cached_path.exists()` evaluated). -/
def get_cached_audio (s : TTSState) (key : CacheKey) :
    Option AudioPath × TTSState × Bool :=
  match s.cache key with
  | some e =>
    if s.files e.path then (some e.path, s, true)
    else
      (none,
       { cache := fun k => if k = key then none else s.cache k
         files := s.files
         synth_count := s.synth_count },
       true)
  | none => (none, s, false)

/-- Embeds `_cache_audio` (lines 96-106): record the entry in the index. -/
def cache_audio (s : TTSState) (key : CacheKey) (audio_path : AudioPath)
    (text voice : String) (now : ℚ) : TTSState :=
  { s with
    cache := fun k =>
      if k = key then some ⟨audio_path, voice, text_preview_of text, now⟩
      else s.cache k }

/-- Modelled from the spec: `StoryGenerator.add_emotional_markers`, the
pre-synthesis text transform that automatically adds pauses and emphasis
(tts_elevenlabs.py lines 139-144).  The method is called but nowhere
defined in the repository, so it is kept abstract as a parameter
`emo : String → String`; the claims below hold for every such
deterministic transform.  This helper applies it exactly when the
`add_emotion` flag is set, as at line 139. -/
def eff_text (emo : String → String) (add_emotion : Bool) (text : String) : String :=
  if add_emotion then emo text else text

/-- The voice keys of `VIRAL_VOICES` (lines 22-41). -/
def VIRAL_VOICE_KEYS : List String :=
  ["mark", "snap", "peter", "viraj", "rachel", "adam"]

/-- The unknown-voice fallback at lines 145-147: an unrecognised voice is
replaced by `"mark"`. -/
def norm_voice (voice : String) : String :=
  if VIRAL_VOICE_KEYS.contains voice then voice else "mark"

/-- Embeds `generate_audio` (lines 108-224): apply the emotion transform,
normalise the voice, build the cache key from
`(text, voice, {stability, similarity_boost, style, model_id})`, return a
cache hit immediately; on a miss pick the output path (the cache file for
the key unless the caller supplied one), synthesize (one collaborator
invocation writing the file), and record the entry in the index.  The
voice-unavailable API retry at lines 195-213 changes neither the cache
key nor the output path and is absorbed into the single synthesis step. -/
def generate_audio (emo : String → String) (now : ℚ) (s : TTSState)
    (text voice : String) (output_path : Option String)
    (stability similarity_boost style : ℚ) (model_id : String)
    (add_emotion : Bool) : AudioPath × TTSState :=
  let text2 := eff_text emo add_emotion text
  let voice2 := norm_voice voice
  let key := get_cache_key text2 voice2 (stability, similarity_boost, style, model_id)
  match (get_cached_audio s key).1 with
  | some p => (p, (get_cached_audio s key).2.1)
  | none =>
    let path : AudioPath :=
      match output_path with
      | none => AudioPath.cacheFile key
      | some p => AudioPath.userFile p
    let s1 := (get_cached_audio s key).2.1
    let s2 : TTSState :=
      { cache := s1.cache
        files := fun q => if q = path then true else s1.files q
        synth_count := s1.synth_count + 1 }
    (path, cache_audio s2 key path text2 voice2 now)

/-- The cache key a `generate_audio` call ends up using: the key of the
emotion-transformed text, the normalised voice, and the settings tuple
(tts_elevenlabs.py lines 139-160). -/
def call_key (emo : String → String) (text voice : String)
    (stability similarity_boost style : ℚ) (model_id : String)
    (add_emotion : Bool) : CacheKey :=
  get_cache_key (eff_text emo add_emotion text) (norm_voice voice)
    (stability, similarity_boost, style, model_id)

/-- The output path chosen on a cache miss (lines 167-171): the cache
file for the key unless the caller supplied an output path. -/
def miss_path (output_path : Option String) (key : CacheKey) : AudioPath :=
  match output_path with
  | none => AudioPath.cacheFile key
  | some p => AudioPath.userFile p

/-! ## Background Normalizer (`VideoComposer._prepare_background`)

A MoviePy clip is modelled by its dimensions (pixels), its duration
(seconds), and `src_start`, the time offset into the source material at
which the clip content begins (`VideoFileClip` loads with offset 0;
`subclipped(t1, t2)` advances it by `t1`; crop, resize and
self-concatenation leave the first frame unchanged).  `subclipped`
requires the window to lie inside the clip and otherwise raises, modelled
by `Option`. -/

/-- A video clip descriptor. -/
structure Clip where
  w : ℕ
  h : ℕ
  duration : ℚ
  src_start : ℚ
deriving DecidableEq, Repr

/-- Python `int(q)`: truncation toward zero. -/
def pyInt (q : ℚ) : ℤ :=
  if q < 0 then -⌊-q⌋ else ⌊q⌋

/-- Embeds `clip.subclipped(t1, t2)`: the window `[t1, t2]` of the clip, which
MoviePy rejects unless it lies inside the clip. -/
def Clip.subclipped (c : Clip) (t1 t2 : ℚ) : Option Clip :=
  if 0 ≤ t1 ∧ t1 ≤ t2 ∧ t2 ≤ c.duration then
    some ⟨c.w, c.h, t2 - t1, c.src_start + t1⟩
  else none

/-- The loop count computed at video_composer.py line 212 when the clip
is shorter than the target: `num_loops = int(target_duration / clip.duration) + 1`. -/
def loop_count (clip_duration target_duration : ℚ) : ℤ :=
  pyInt (target_duration / clip_duration) + 1

/-- Embeds `VideoComposer._prepare_background` (video_composer.py lines
175-218): center-crop to the target aspect ratio when the aspect ratios
differ by more than `0.01` (only the cropped dimension matters for the
descriptor), resize to the target dimensions, tile
`num_loops = int(target / duration) + 1` copies when the clip is shorter
than the target, and finally `subclipped(0, target_duration)`.  `none`
models a Python exception (division by a zero height or duration, or an
invalid subclip window). -/
def prepare_background (width height : ℕ) (c : Clip) (target_duration : ℚ) :
    Option Clip :=
  if c.h = 0 ∨ height = 0 then none
  else
    let clip_aspect : ℚ := (c.w : ℚ) / (c.h : ℚ)
    let target_aspect : ℚ := (width : ℚ) / (height : ℚ)
    let c1 : Clip :=
      if 1 / 100 < |clip_aspect - target_aspect| then
        if target_aspect < clip_aspect then
          { c with w := (pyInt ((c.h : ℚ) * target_aspect)).toNat }
        else
          { c with h := (pyInt ((c.w : ℚ) / target_aspect)).toNat }
      else c
    let c2 : Clip := { c1 with w := width, h := height }
    let looped : Option Clip :=
      if c2.duration < target_duration then
        if c2.duration = 0 then none
        else some { c2 with
          duration := ((loop_count c2.duration target_duration : ℤ) : ℚ) * c2.duration }
      else some c2
    looped.bind (fun cl => cl.subclipped 0 target_duration)

/-! ## Caption placement (`VideoComposer._add_subtitles`) -/

/-- Python `text.upper()` (character-wise upper-casing). -/
def pyUpper (s : String) : String :=
  String.mk (s.data.map Char.toUpper)

/-- A positioned subtitle overlay as built in `_add_subtitles`
(video_composer.py lines 244-267): upper-cased text, font size 80, the
position tuple `("center", self.height * 0.65)`, start, and duration
`end - start`. -/
structure SubtitleClip where
  text : String
  font_size : ℕ
  pos_x : String
  pos_y : ℚ
  start : ℚ
  duration : ℚ
deriving DecidableEq, Repr

/-- Embeds `VideoComposer._add_subtitles` (lines 220-272), restricted to the
overlay clips it creates: one `TextClip` per cue, positioned at
`("center", self.height * 0.65)` — line 260 — regardless of the cue
text. -/
def add_subtitles (height : ℕ) (subtitles : List (ℚ × ℚ × String)) :
    List SubtitleClip :=
  subtitles.map (fun cue =>
    { text := pyUpper cue.2.2
      font_size := 80
      pos_x := "center"
      pos_y := (height : ℚ) * 65 / 100
      start := cue.1
      duration := cue.2.1 - cue.1 })

/-! ## Arithmetic of the chunk loop

`range(0, n, k)` with `0 < k` has `(n + k - 1) / k` elements, the ceiling
of `n / k`; these lemmas package the ceiling-division facts the cue
theorems need. -/

lemma le_ceilDiv_mul (k n : ℕ) (hk : 0 < k) : n ≤ ((n + k - 1) / k) * k := by
  have h1 := Nat.div_add_mod (n + k - 1) k
  have h2 : (n + k - 1) % k < k := Nat.mod_lt _ hk
  rw [mul_comm]
  generalize hq : (n + k - 1) / k = q at h1 ⊢
  generalize hm : k * q = m at h1 ⊢
  generalize hr : (n + k - 1) % k = r at h1 h2
  omega

lemma lt_ceilDiv_iff (k n j : ℕ) (hk : 0 < k) :
    j < (n + k - 1) / k ↔ j * k < n := by
  rw [Nat.lt_iff_add_one_le, Nat.le_div_iff_mul_le hk]
  have h : (j + 1) * k = j * k + k := by ring
  rw [h]
  generalize hm : j * k = m
  omega

lemma word_chunks_nil (k : ℕ) (hk : 0 < k) : word_chunks k ([] : List String) = [] := by
  have h : (k - 1) / k = 0 := Nat.div_eq_of_lt (by omega)
  simp [word_chunks, h]

lemma ceilDiv_succ (k n : ℕ) (hk : 0 < k) (hn : 0 < n) :
    (n + k - 1) / k = (n - k + k - 1) / k + 1 := by
  rcases le_or_lt n k with h | h
  · have h0 : n - k = 0 := by omega
    have h1 : n + k - 1 = (n - 1) + k := by omega
    have h2 : (n - 1) / k = 0 := Nat.div_eq_of_lt (by omega)
    have h3 : (0 + k - 1) / k = 0 := Nat.div_eq_of_lt (by omega)
    rw [h0, h1, Nat.add_div_right _ hk, h2, h3]
  · have h1 : n + k - 1 = (n - 1) + k := by omega
    have h2 : n - k + k - 1 = (n - k - 1) + k := by omega
    have h3 : n - 1 = (n - k - 1) + k := by omega
    rw [h1, h2, Nat.add_div_right _ hk, Nat.add_div_right _ hk, h3,
      Nat.add_div_right _ hk]

lemma word_chunks_cons (k : ℕ) (hk : 0 < k) (ws : List String) (hw : ws ≠ []) :
    word_chunks k ws = ws.take k :: word_chunks k (ws.drop k) := by
  have hn : 0 < ws.length := List.length_pos.mpr hw
  have hm : (ws.length + k - 1) / k = ((ws.drop k).length + k - 1) / k + 1 := by
    rw [List.length_drop]
    exact ceilDiv_succ k ws.length hk hn
  rw [word_chunks, hm, List.range_succ_eq_map, List.map_cons]
  rw [Nat.zero_mul, List.drop_zero, List.map_map]
  rw [word_chunks]
  congr 1
  apply List.map_congr_left
  intro j _
  simp only [Function.comp_apply]
  rw [List.drop_drop, Nat.succ_mul, Nat.add_comm (j * k) k]

lemma word_chunks_flatten_aux (k : ℕ) (hk : 0 < k) :
    ∀ (n : ℕ) (ws : List String), ws.length ≤ n → (word_chunks k ws).flatten = ws := by
  intro n
  induction n with
  | zero =>
    intro ws h
    have : ws = [] := List.length_eq_zero.mp (Nat.le_zero.mp h)
    rw [this, word_chunks_nil k hk, List.flatten_nil]
  | succ n ih =>
    intro ws h
    rcases em (ws = []) with hnil | hne
    · rw [hnil, word_chunks_nil k hk, List.flatten_nil]
    · rw [word_chunks_cons k hk ws hne, List.flatten_cons]
      have hlen : (ws.drop k).length ≤ n := by
        rw [List.length_drop]
        have : 0 < ws.length := List.length_pos.mpr hne
        omega
      rw [ih (ws.drop k) hlen, List.take_append_drop]

/-- The chunks of the cue loop reassemble to the whole word list: no word
is dropped or duplicated. -/
lemma word_chunks_flatten (k : ℕ) (hk : 0 < k) (ws : List String) :
    (word_chunks k ws).flatten = ws :=
  word_chunks_flatten_aux k hk ws.length ws le_rfl

lemma getLast?_map_range {α : Type} (f : ℕ → α) (m : ℕ) (hm : m ≠ 0) :
    ((List.range m).map f).getLast? = some (f (m - 1)) := by
  obtain ⟨m2, rfl⟩ := Nat.exists_eq_succ_of_ne_zero hm
  rw [List.range_succ, List.map_append, List.map_singleton, List.getLast?_concat]
  simp

/-- The cue produced for chunk index `j` (word index `i = j * k`):
`start = i * time_per_word`, `end = (i + chunk_len) * time_per_word` with
`chunk_len = min k (n - i)`, and text the joined chunk `words[i : i + k]`. -/
lemma generate_subtitles_getElem (k : ℕ) (text : String) (D : ℚ) (j : ℕ)
    (hk : 0 < k) (hj : j * k < (pySplit (clean_text text)).length) :
    (generate_subtitles k text D)[j]? =
      some (((j * k : ℕ) : ℚ) * time_per_word text D,
        ((j * k + min k ((pySplit (clean_text text)).length - j * k) : ℕ) : ℚ)
          * time_per_word text D,
        join_with_space (((pySplit (clean_text text)).drop (j * k)).take k)) := by
  have hpos : 0 < (pySplit (clean_text text)).length :=
    lt_of_le_of_lt (Nat.zero_le _) hj
  have hn : ¬ (pySplit (clean_text text)).length = 0 := by omega
  have hm : j < ((pySplit (clean_text text)).length + k - 1) / k :=
    (lt_ceilDiv_iff k _ j hk).mpr hj
  simp only [generate_subtitles, hn, if_false, time_per_word]
  rw [List.getElem?_map, List.getElem?_range hm]
  simp [List.length_take, List.length_drop]

/-- The length of the cue list: zero for a wordless text, otherwise the
number `(n + k - 1) / k` of chunk indices. -/
lemma generate_subtitles_length (k : ℕ) (text : String) (D : ℚ) :
    (generate_subtitles k text D).length =
      if (pySplit (clean_text text)).length = 0 then 0
      else ((pySplit (clean_text text)).length + k - 1) / k := by
  rcases em ((pySplit (clean_text text)).length = 0) with h | h
  · simp [generate_subtitles, h]
  · simp [generate_subtitles, h]

/-- The final cue ends exactly at the audio duration. -/
lemma generate_subtitles_last_end (k : ℕ) (text : String) (D : ℚ) (hk : 0 < k)
    (hw : pySplit (clean_text text) ≠ []) :
    (generate_subtitles k text D).getLast?.map (fun c => c.2.1) = some D := by
  have hn : ¬ (pySplit (clean_text text)).length = 0 :=
    fun h => hw (List.length_eq_zero.mp h)
  have hpos : 0 < (pySplit (clean_text text)).length := by omega
  obtain ⟨m1, hm1⟩ : ∃ m1,
      ((pySplit (clean_text text)).length + k - 1) / k = m1 + 1 := by
    refine ⟨((pySplit (clean_text text)).length + k - 1) / k - 1, ?_⟩
    have h0 : 0 < ((pySplit (clean_text text)).length + k - 1) / k := by
      have := (lt_ceilDiv_iff k (pySplit (clean_text text)).length 0 hk).mpr
        (by simpa using hpos)
      omega
    omega
  have hlt : m1 * k < (pySplit (clean_text text)).length := by
    have := (lt_ceilDiv_iff k (pySplit (clean_text text)).length m1 hk).mp
      (by omega)
    exact this
  have hle : (pySplit (clean_text text)).length ≤ m1 * k + k := by
    have h2 := le_ceilDiv_mul k (pySplit (clean_text text)).length hk
    rw [hm1, Nat.succ_mul] at h2
    exact h2
  have hsum : m1 * k + min k ((pySplit (clean_text text)).length - m1 * k)
      = (pySplit (clean_text text)).length := by
    have hmin : min k ((pySplit (clean_text text)).length - m1 * k)
        = (pySplit (clean_text text)).length - m1 * k :=
      min_eq_right (by omega)
    omega
  simp only [generate_subtitles, hn, if_false]
  rw [hm1, getLast?_map_range _ (m1 + 1) (by omega)]
  simp only [Nat.add_sub_cancel, Option.map_some', List.length_take,
    List.length_drop]
  congr 1
  rw [hsum, mul_comm]
  exact div_mul_cancel₀ D (by exact_mod_cast hn)

/-- Consecutive cues are contiguous: each cue ends where the next one
starts. -/
lemma generate_subtitles_chain (k : ℕ) (text : String) (D : ℚ) (hk : 0 < k) :
    List.Chain' (fun a b => a.2.1 = b.1) (generate_subtitles k text D) := by
  rcases em ((pySplit (clean_text text)).length = 0) with h | h
  · simp [generate_subtitles, h]
  · rw [List.chain'_iff_get]
    intro i hi
    have hlen := generate_subtitles_length k text D
    rw [hlen, if_neg h] at hi
    have hi1 : (i + 1) * k < (pySplit (clean_text text)).length :=
      (lt_ceilDiv_iff k _ (i + 1) hk).mp (by omega)
    have hi0 : i * k < (pySplit (clean_text text)).length := by
      have hmono : i * k ≤ (i + 1) * k := Nat.mul_le_mul_right k (by omega)
      omega
    have hiL : i + 1 < (generate_subtitles k text D).length := by
      rw [hlen, if_neg h]
      omega
    have g0 := generate_subtitles_getElem k text D i hk hi0
    have g1 := generate_subtitles_getElem k text D (i + 1) hk hi1
    rw [List.getElem?_eq_getElem (by omega), Option.some_inj] at g0
    rw [List.getElem?_eq_getElem (by omega), Option.some_inj] at g1
    rw [List.get_eq_getElem, List.get_eq_getElem, g0, g1]
    have hmin : min k ((pySplit (clean_text text)).length - i * k) = k := by
      rw [Nat.succ_mul] at hi1
      exact min_eq_left (by omega)
    dsimp only
    rw [hmin]
    push_cast
    ring

/-- The cue texts are exactly the joined word chunks, in order. -/
lemma generate_subtitles_texts (k : ℕ) (text : String) (D : ℚ)
    (hn : ¬ (pySplit (clean_text text)).length = 0) :
    (generate_subtitles k text D).map (fun c => c.2.2)
      = (word_chunks k (pySplit (clean_text text))).map join_with_space := by
  simp only [generate_subtitles, hn, if_false, word_chunks, List.map_map]
  rfl

/-- C2: for every text with at least one word and every duration `D > 0`,
the cue list of `generate_subtitles` ends exactly at `D`, its cue texts
are the joined word chunks which reassemble the cleaned word sequence
with no word dropped or duplicated, and consecutive cues are contiguous
(`cue[i].end = cue[i+1].start`), leaving no gaps or overlaps. -/
theorem cue_schedule_covers_duration (k : ℕ) (text : String) (D : ℚ)
    (hk : 0 < k) (hw : pySplit (clean_text text) ≠ []) (hD : 0 < D) :
    (generate_subtitles k text D).getLast?.map (fun c => c.2.1) = some D
    ∧ (generate_subtitles k text D).map (fun c => c.2.2)
        = (word_chunks k (pySplit (clean_text text))).map join_with_space
    ∧ (word_chunks k (pySplit (clean_text text))).flatten
        = pySplit (clean_text text)
    ∧ List.Chain' (fun a b => a.2.1 = b.1) (generate_subtitles k text D) := by
  have hn : ¬ (pySplit (clean_text text)).length = 0 :=
    fun h => hw (List.length_eq_zero.mp h)
  exact ⟨generate_subtitles_last_end k text D hk hw,
    generate_subtitles_texts k text D hn,
    word_chunks_flatten k hk _,
    generate_subtitles_chain k text D hk⟩

/-- Witness for C2 at chunk size 2, text `AAAA BBBB CCCC DDDD`,
duration 10. -/
theorem cue_schedule_covers_duration_witness :
    (0 < 2) ∧ pySplit (clean_text "AAAA BBBB CCCC DDDD") ≠ [] ∧ ((0 : ℚ) < 10)
    ∧ ((generate_subtitles 2 "AAAA BBBB CCCC DDDD" 10).getLast?.map
          (fun c => c.2.1) = some 10
       ∧ (generate_subtitles 2 "AAAA BBBB CCCC DDDD" 10).map (fun c => c.2.2)
           = (word_chunks 2 (pySplit (clean_text "AAAA BBBB CCCC DDDD"))).map
               join_with_space
       ∧ (word_chunks 2 (pySplit (clean_text "AAAA BBBB CCCC DDDD"))).flatten
           = pySplit (clean_text "AAAA BBBB CCCC DDDD")
       ∧ List.Chain' (fun a b => a.2.1 = b.1)
           (generate_subtitles 2 "AAAA BBBB CCCC DDDD" 10)) :=
  ⟨by decide, by decide, by norm_num,
   cue_schedule_covers_duration 2 "AAAA BBBB CCCC DDDD" 10
     (by decide) (by decide) (by norm_num)⟩

/-- C8: the cue at chunk index `j` (word index `i = j * k`) has
`start = i * time_per_word`, `end = (i + chunk_len) * time_per_word` with
`chunk_len = min k (n - i)`; and concretely, text `AAAA BBBB CCCC DDDD`
with chunk size 2 and duration 10.0 yields exactly
`[(0.0, 5.0, "AAAA BBBB"), (5.0, 10.0, "CCCC DDDD")]`. -/
theorem cue_timing_formula (k : ℕ) (text : String) (D : ℚ) (hk : 0 < k) :
    (∀ j, j * k < (pySplit (clean_text text)).length →
      (generate_subtitles k text D)[j]? =
        some (((j * k : ℕ) : ℚ) * time_per_word text D,
          ((j * k + min k ((pySplit (clean_text text)).length - j * k) : ℕ) : ℚ)
            * time_per_word text D,
          join_with_space (((pySplit (clean_text text)).drop (j * k)).take k)))
    ∧ generate_subtitles 2 "AAAA BBBB CCCC DDDD" 10
        = [(0, 5, "AAAA BBBB"), (5, 10, "CCCC DDDD")] := by
  constructor
  · intro j hj
    exact generate_subtitles_getElem k text D j hk hj
  · have hw : pySplit (clean_text "AAAA BBBB CCCC DDDD")
        = ["AAAA", "BBBB", "CCCC", "DDDD"] := by decide
    simp only [generate_subtitles, hw]
    norm_num [List.range_succ, join_with_space]
    exact ⟨rfl, rfl⟩

/-- Witness for C8 at chunk size 2, chunk index 0, text
`AAAA BBBB CCCC DDDD`, duration 10. -/
theorem cue_timing_formula_witness :
    (0 < 2) ∧ (0 * 2 < (pySplit (clean_text "AAAA BBBB CCCC DDDD")).length)
    ∧ (generate_subtitles 2 "AAAA BBBB CCCC DDDD" 10)[0]? =
        some (((0 * 2 : ℕ) : ℚ) * time_per_word "AAAA BBBB CCCC DDDD" 10,
          ((0 * 2 + min 2 ((pySplit (clean_text "AAAA BBBB CCCC DDDD")).length
              - 0 * 2) : ℕ) : ℚ) * time_per_word "AAAA BBBB CCCC DDDD" 10,
          join_with_space
            (((pySplit (clean_text "AAAA BBBB CCCC DDDD")).drop (0 * 2)).take 2)) :=
  ⟨by decide, by decide,
   (cue_timing_formula 2 "AAAA BBBB CCCC DDDD" 10 (by decide)).1 0 (by decide)⟩

/-- C3 counterexample: the source computes
`time_per_word = audio_duration / total_words` with no pause-marker
offset, so the text `wait... what` (which contains an ellipsis) does NOT
get a strictly larger `time_per_word` than `D / word_count`. -/
theorem pause_marker_no_extra_time_cex :
    has_long_pause_marker "wait... what" = true
    ∧ ¬ ((10 : ℚ) / ((pySplit (clean_text "wait... what")).length : ℚ)
          < time_per_word "wait... what" 10) := by
  refine ⟨by decide, ?_⟩
  simp [time_per_word]

/-- C3 amended: `time_per_word` is exactly `duration / word_count`
regardless of long pause markers — a text containing an ellipsis receives
no additional effective duration, and its cue schedule still ends exactly
at `D`. -/
theorem pause_marker_time_unchanged (text : String) (D : ℚ) (k : ℕ)
    (hk : 0 < k) (hmark : has_long_pause_marker text = true)
    (hw : pySplit (clean_text text) ≠ []) :
    time_per_word text D = D / ((pySplit (clean_text text)).length : ℚ)
    ∧ (generate_subtitles k text D).getLast?.map (fun c => c.2.1) = some D :=
  ⟨rfl, generate_subtitles_last_end k text D hk hw⟩

/-- Witness for the amended C3 at chunk size 1, text `wait... what`,
duration 10. -/
theorem pause_marker_time_unchanged_witness :
    (0 < 1) ∧ has_long_pause_marker "wait... what" = true
    ∧ pySplit (clean_text "wait... what") ≠ []
    ∧ (time_per_word "wait... what" 10
          = 10 / ((pySplit (clean_text "wait... what")).length : ℚ)
       ∧ (generate_subtitles 1 "wait... what" 10).getLast?.map
           (fun c => c.2.1) = some 10) :=
  ⟨by decide, by decide, by decide,
   pause_marker_time_unchanged "wait... what" 10 1 (by decide) (by decide)
     (by decide)⟩

/-- C1 counterexample: starting from an empty store, create `j1`, update
it to `COMPLETED` with progress 100, then update it to `RUNNING`.  In
both backends the second update is neither rejected nor ignored: `get`
afterwards reports `RUNNING`, not `COMPLETED`. -/
theorem terminal_state_not_enforced_cex :
    (((update_job
        (update_job
          (create_job (fun _ => none) 0 "j1" "video" none).2
          1 "j1" ⟨some JobStatus.COMPLETED, some 100, none, none⟩).2
        2 "j1" ⟨some JobStatus.RUNNING, none, none, none⟩).2 "j1").map Job.status
      = some JobStatus.RUNNING)
    ∧ (((update_job
        (update_job
          (create_job (fun _ => none) 0 "j1" "video" none).2
          1 "j1" ⟨some JobStatus.COMPLETED, some 100, none, none⟩).2
        2 "j1" ⟨some JobStatus.RUNNING, none, none, none⟩).2 "j1").map Job.status
      ≠ some JobStatus.COMPLETED)
    ∧ ((update_job
        (update_job
          (create_job (fun _ => none) 0 "j1" "video" none).2
          1 "j1" ⟨some JobStatus.COMPLETED, some 100, none, none⟩).2
        2 "j1" ⟨some JobStatus.RUNNING, none, none, none⟩).1 ≠ none)
    ∧ (((fb_update_job
        (fb_update_job
          (fb_create_job (fun _ => none) 0 "j1" "video" none).2
          1 "j1" ⟨some JobStatus.COMPLETED, some 100, none, none⟩).2
        2 "j1" ⟨some JobStatus.RUNNING, none, none, none⟩).2 "j1").map Job.status
      = some JobStatus.RUNNING) := by
  refine ⟨?_, ?_, ?_, ?_⟩ <;>
    simp [create_job, fb_create_job, update_job, fb_update_job, fb_get_job,
      applyUpdates, Job.new, JobStatus.RUNNING, JobStatus.COMPLETED,
      JobStatus.PENDING]

/-- C1 amended: `update_job` applies the requested field changes
unconditionally — there is no terminal-state guard in either backend, so
an update to `RUNNING` on a job whose status is `COMPLETED` succeeds and
a subsequent `get` reports `RUNNING`. -/
theorem update_overwrites_terminal_status (T S : JobStore) (now : ℚ)
    (id : String) (j jf : Job)
    (h : T id = some j) (hc : j.status = JobStatus.COMPLETED)
    (hf : S id = some jf) (hcf : jf.status = JobStatus.COMPLETED) :
    ((update_job T now id ⟨some JobStatus.RUNNING, none, none, none⟩).2 id).map
        Job.status = some JobStatus.RUNNING
    ∧ (update_job T now id ⟨some JobStatus.RUNNING, none, none, none⟩).1.isSome
        = true
    ∧ ((fb_update_job S now id ⟨some JobStatus.RUNNING, none, none, none⟩).2 id).map
        Job.status = some JobStatus.RUNNING
    ∧ (fb_update_job S now id ⟨some JobStatus.RUNNING, none, none, none⟩).1.isSome
        = true := by
  refine ⟨?_, ?_, ?_, ?_⟩ <;>
    simp [update_job, fb_update_job, fb_get_job, applyUpdates, h, hf]

/-- Witness for the amended C1 on a store holding one completed job. -/
theorem update_overwrites_terminal_status_witness :
    ((fun k => if k = "j1"
        then some (⟨"j1", "video", JobStatus.COMPLETED, 100, [], none, [], 0, 1⟩ : Job)
        else none) "j1"
      = some (⟨"j1", "video", JobStatus.COMPLETED, 100, [], none, [], 0, 1⟩ : Job))
    ∧ (⟨"j1", "video", JobStatus.COMPLETED, 100, [], none, [], 0, 1⟩ : Job).status
        = JobStatus.COMPLETED
    ∧ (((update_job
          (fun k => if k = "j1"
            then some (⟨"j1", "video", JobStatus.COMPLETED, 100, [], none, [], 0, 1⟩ : Job)
            else none)
          2 "j1" ⟨some JobStatus.RUNNING, none, none, none⟩).2 "j1").map
            Job.status = some JobStatus.RUNNING
       ∧ (update_job
            (fun k => if k = "j1"
              then some (⟨"j1", "video", JobStatus.COMPLETED, 100, [], none, [], 0, 1⟩ : Job)
              else none)
            2 "j1" ⟨some JobStatus.RUNNING, none, none, none⟩).1.isSome = true
       ∧ ((fb_update_job
            (fun k => if k = "j1"
              then some (⟨"j1", "video", JobStatus.COMPLETED, 100, [], none, [], 0, 1⟩ : Job)
              else none)
            2 "j1" ⟨some JobStatus.RUNNING, none, none, none⟩).2 "j1").map
              Job.status = some JobStatus.RUNNING
       ∧ (fb_update_job
            (fun k => if k = "j1"
              then some (⟨"j1", "video", JobStatus.COMPLETED, 100, [], none, [], 0, 1⟩ : Job)
              else none)
            2 "j1" ⟨some JobStatus.RUNNING, none, none, none⟩).1.isSome = true) :=
  ⟨rfl, rfl,
   update_overwrites_terminal_status _ _ 2 "j1" _ _ rfl rfl rfl rfl⟩

/-- C10: in both backends, `create_job` on an id that already exists does
not fail (it is total) and silently replaces the stored record with a
fresh job: status `PENDING`, progress 0, empty result, no error, and
`created_at` set to the current time — the prior record is discarded. -/
theorem create_job_silently_replaces (T S : JobStore) (now : ℚ)
    (id ty : String) (md : Option Dict) (j0 k0 : Job)
    (h : T id = some j0) (hf : S id = some k0) :
    (create_job T now id ty md).2 id = some (Job.new now id ty md)
    ∧ (create_job T now id ty md).1 = Job.new now id ty md
    ∧ (fb_create_job S now id ty md).2 id = some (Job.new now id ty md)
    ∧ (fb_create_job S now id ty md).1 = Job.new now id ty md
    ∧ (Job.new now id ty md).status = JobStatus.PENDING
    ∧ (Job.new now id ty md).progress = 0
    ∧ (Job.new now id ty md).result = []
    ∧ (Job.new now id ty md).error = none
    ∧ (Job.new now id ty md).created_at = now := by
  refine ⟨?_, rfl, ?_, rfl, rfl, rfl, rfl, rfl, rfl⟩ <;>
    simp [create_job, fb_create_job]

/-- Witness for C10 on stores holding an existing completed job `j1`. -/
theorem create_job_silently_replaces_witness :
    ((fun k => if k = "j1"
        then some (⟨"j1", "video", JobStatus.COMPLETED, 100, [], none, [], 0, 1⟩ : Job)
        else none) "j1"
      = some (⟨"j1", "video", JobStatus.COMPLETED, 100, [], none, [], 0, 1⟩ : Job))
    ∧ ((create_job
          (fun k => if k = "j1"
            then some (⟨"j1", "video", JobStatus.COMPLETED, 100, [], none, [], 0, 1⟩ : Job)
            else none)
          5 "j1" "video" none).2 "j1" = some (Job.new 5 "j1" "video" none)
       ∧ (create_job
            (fun k => if k = "j1"
              then some (⟨"j1", "video", JobStatus.COMPLETED, 100, [], none, [], 0, 1⟩ : Job)
              else none)
            5 "j1" "video" none).1 = Job.new 5 "j1" "video" none
       ∧ (fb_create_job
            (fun k => if k = "j1"
              then some (⟨"j1", "video", JobStatus.COMPLETED, 100, [], none, [], 0, 1⟩ : Job)
              else none)
            5 "j1" "video" none).2 "j1" = some (Job.new 5 "j1" "video" none)
       ∧ (fb_create_job
            (fun k => if k = "j1"
              then some (⟨"j1", "video", JobStatus.COMPLETED, 100, [], none, [], 0, 1⟩ : Job)
              else none)
            5 "j1" "video" none).1 = Job.new 5 "j1" "video" none
       ∧ (Job.new 5 "j1" "video" none).status = JobStatus.PENDING
       ∧ (Job.new 5 "j1" "video" none).progress = 0
       ∧ (Job.new 5 "j1" "video" none).result = []
       ∧ (Job.new 5 "j1" "video" none).error = none
       ∧ (Job.new 5 "j1" "video" none).created_at = 5) :=
  ⟨rfl, create_job_silently_replaces _ _ 5 "j1" "video" none _ _ rfl rfl⟩

/-! ## Cache lemmas -/

/-- A lookup of an unknown key misses, leaves the state unchanged, and
does not consult the filesystem. -/
lemma get_cached_audio_none (s : TTSState) (key : CacheKey)
    (h : s.cache key = none) :
    get_cached_audio s key = (none, s, false) := by
  simp [get_cached_audio, h]

/-- A lookup of a live entry (file present) returns the stored path and
leaves the state unchanged. -/
lemma get_cached_audio_hit (s : TTSState) (key : CacheKey) (e : CacheEntry)
    (h : s.cache key = some e) (hf : s.files e.path = true) :
    get_cached_audio s key = (some e.path, s, true) := by
  simp [get_cached_audio, h, hf]

/-- On a cache miss `generate_audio` synthesizes into the miss path,
marks the file as existing, bumps the synthesis count, and records the
index entry. -/
lemma generate_audio_miss (emo : String → String) (now : ℚ) (s : TTSState)
    (text voice : String) (po : Option String) (a b c : ℚ) (m : String)
    (ae : Bool)
    (h : s.cache (call_key emo text voice a b c m ae) = none) :
    generate_audio emo now s text voice po a b c m ae =
      (miss_path po (call_key emo text voice a b c m ae),
       cache_audio
         { cache := s.cache
           files := fun q =>
             if q = miss_path po (call_key emo text voice a b c m ae) then true
             else s.files q
           synth_count := s.synth_count + 1 }
         (call_key emo text voice a b c m ae)
         (miss_path po (call_key emo text voice a b c m ae))
         (eff_text emo ae text) (norm_voice voice) now) := by
  have hl := get_cached_audio_none s (call_key emo text voice a b c m ae) h
  rcases po with _ | p <;>
    simp only [generate_audio, call_key, get_cache_key] at * <;>
    rw [hl] <;>
    rfl

/-- On a cache hit `generate_audio` returns the stored path and changes
nothing. -/
lemma generate_audio_hit (emo : String → String) (now : ℚ) (s : TTSState)
    (text voice : String) (po : Option String) (a b c : ℚ) (m : String)
    (ae : Bool) (e : CacheEntry)
    (h : s.cache (call_key emo text voice a b c m ae) = some e)
    (hf : s.files e.path = true) :
    generate_audio emo now s text voice po a b c m ae = (e.path, s) := by
  have hl := get_cached_audio_hit s (call_key emo text voice a b c m ae) e h hf
  simp only [generate_audio, call_key, get_cache_key] at *
  rw [hl]

/-- C4: calling the cache-backed audio generation twice with identical
`(text, voice, settings)` inputs, starting from a state with no entry
for that request, performs synthesis exactly once; the second call is a
cache hit (the stored key maps to an existing file) and returns the same
path as the first without invoking the synthesis collaborator. -/
theorem cache_idempotent (emo : String → String) (t1 t2 : ℚ) (s : TTSState)
    (text voice : String) (po : Option String) (a b c : ℚ) (m : String)
    (ae : Bool)
    (h : s.cache (call_key emo text voice a b c m ae) = none) :
    (generate_audio emo t2
        (generate_audio emo t1 s text voice po a b c m ae).2
        text voice po a b c m ae).1
      = (generate_audio emo t1 s text voice po a b c m ae).1
    ∧ (generate_audio emo t1 s text voice po a b c m ae).2.synth_count
        = s.synth_count + 1
    ∧ (generate_audio emo t2
        (generate_audio emo t1 s text voice po a b c m ae).2
        text voice po a b c m ae).2.synth_count
      = s.synth_count + 1
    ∧ ∃ e, (generate_audio emo t1 s text voice po a b c m ae).2.cache
          (call_key emo text voice a b c m ae) = some e
        ∧ (generate_audio emo t1 s text voice po a b c m ae).2.files e.path
            = true := by
  have h1 := generate_audio_miss emo t1 s text voice po a b c m ae h
  set key := call_key emo text voice a b c m ae with hkey
  set path := miss_path po key with hpath
  have hc : (generate_audio emo t1 s text voice po a b c m ae).2.cache key
      = some ⟨path, norm_voice voice, text_preview_of (eff_text emo ae text), t1⟩ := by
    rw [h1]
    simp [cache_audio]
  have hfile : (generate_audio emo t1 s text voice po a b c m ae).2.files path
      = true := by
    rw [h1]
    simp [cache_audio]
  have h2 := generate_audio_hit emo t2
    (generate_audio emo t1 s text voice po a b c m ae).2 text voice po a b c m ae
    ⟨path, norm_voice voice, text_preview_of (eff_text emo ae text), t1⟩ hc hfile
  refine ⟨?_, ?_, ?_, ⟨_, hc, hfile⟩⟩
  · rw [h2, h1]
  · rw [h1]
    simp [cache_audio]
  · rw [h2, h1]
    simp [cache_audio]

/-- Witness for C4: two identical calls from the empty cache state. -/
theorem cache_idempotent_witness :
    ((⟨fun _ => none, fun _ => false, 0⟩ : TTSState).cache
        (call_key id "hi" "mark" 0 0 0 "m" true) = none)
    ∧ ((generate_audio id 1
          (generate_audio id 0 (⟨fun _ => none, fun _ => false, 0⟩ : TTSState)
            "hi" "mark" none 0 0 0 "m" true).2
          "hi" "mark" none 0 0 0 "m" true).1
        = (generate_audio id 0 (⟨fun _ => none, fun _ => false, 0⟩ : TTSState)
            "hi" "mark" none 0 0 0 "m" true).1
       ∧ (generate_audio id 0 (⟨fun _ => none, fun _ => false, 0⟩ : TTSState)
            "hi" "mark" none 0 0 0 "m" true).2.synth_count
          = (⟨fun _ => none, fun _ => false, 0⟩ : TTSState).synth_count + 1
       ∧ (generate_audio id 1
            (generate_audio id 0 (⟨fun _ => none, fun _ => false, 0⟩ : TTSState)
              "hi" "mark" none 0 0 0 "m" true).2
            "hi" "mark" none 0 0 0 "m" true).2.synth_count
          = (⟨fun _ => none, fun _ => false, 0⟩ : TTSState).synth_count + 1
       ∧ ∃ e, (generate_audio id 0 (⟨fun _ => none, fun _ => false, 0⟩ : TTSState)
              "hi" "mark" none 0 0 0 "m" true).2.cache
              (call_key id "hi" "mark" 0 0 0 "m" true) = some e
            ∧ (generate_audio id 0 (⟨fun _ => none, fun _ => false, 0⟩ : TTSState)
                "hi" "mark" none 0 0 0 "m" true).2.files e.path = true) :=
  ⟨rfl, cache_idempotent id 0 1 (⟨fun _ => none, fun _ => false, 0⟩ : TTSState)
    "hi" "mark" none 0 0 0 "m" true rfl⟩

/-- C9: a lookup of a key whose indexed path no longer exists misses
(no stale path, no exception — the result is an ordinary miss), purges
the entry from the index, and an immediately repeated lookup of the same
key also misses without consulting the filesystem and without touching
the index again. -/
theorem stale_entry_self_heals (s : TTSState) (key : CacheKey) (e : CacheEntry)
    (h : s.cache key = some e) (hf : s.files e.path = false) :
    (get_cached_audio s key).1 = none
    ∧ (get_cached_audio s key).2.2 = true
    ∧ ((get_cached_audio s key).2.1).cache key = none
    ∧ (get_cached_audio ((get_cached_audio s key).2.1) key).1 = none
    ∧ (get_cached_audio ((get_cached_audio s key).2.1) key).2.2 = false
    ∧ ∀ k2, ((get_cached_audio ((get_cached_audio s key).2.1) key).2.1).cache k2
        = ((get_cached_audio s key).2.1).cache k2 := by
  have h1 : get_cached_audio s key =
      (none,
       { cache := fun k => if k = key then none else s.cache k
         files := s.files
         synth_count := s.synth_count },
       true) := by
    simp [get_cached_audio, h, hf]
  have h2 : (get_cached_audio s key).2.1.cache key = none := by
    rw [h1]
    simp
  have h3 := get_cached_audio_none ((get_cached_audio s key).2.1) key h2
  exact ⟨by rw [h1], by rw [h1], h2, by rw [h3], by rw [h3],
    fun k2 => by rw [h3]⟩

/-- Witness for C9 on a one-entry index whose file is absent. -/
theorem stale_entry_self_heals_witness :
    ((⟨fun k => if k = ("t", "v", (0, 0, 0, "m")) then
          some ⟨AudioPath.userFile "gone.mp3", "v", "t", 0⟩ else none,
        fun _ => false, 0⟩ : TTSState).cache ("t", "v", (0, 0, 0, "m"))
      = some ⟨AudioPath.userFile "gone.mp3", "v", "t", 0⟩)
    ∧ ((⟨fun k => if k = ("t", "v", (0, 0, 0, "m")) then
          some ⟨AudioPath.userFile "gone.mp3", "v", "t", 0⟩ else none,
        fun _ => false, 0⟩ : TTSState).files
        (⟨AudioPath.userFile "gone.mp3", "v", "t", 0⟩ : CacheEntry).path = false)
    ∧ ((get_cached_audio
          (⟨fun k => if k = ("t", "v", (0, 0, 0, "m")) then
              some ⟨AudioPath.userFile "gone.mp3", "v", "t", 0⟩ else none,
            fun _ => false, 0⟩ : TTSState) ("t", "v", (0, 0, 0, "m"))).1 = none) :=
  ⟨by decide, rfl,
   (stale_entry_self_heals
      (⟨fun k => if k = ("t", "v", (0, 0, 0, "m")) then
          some ⟨AudioPath.userFile "gone.mp3", "v", "t", 0⟩ else none,
        fun _ => false, 0⟩ : TTSState)
      ("t", "v", (0, 0, 0, "m"))
      ⟨AudioPath.userFile "gone.mp3", "v", "t", 0⟩ (by decide) rfl).1⟩

/-! ## Background Normalizer lemmas -/

/-- For a positive ratio, `pyInt` is the floor. -/
lemma pyInt_nonneg (q : ℚ) (h : 0 ≤ q) : pyInt q = ⌊q⌋ := by
  rw [pyInt, if_neg (not_lt.mpr h)]

/-- The tiled duration strictly covers the target:
`(int(target / d) + 1) * d > target` whenever `0 < d` and `0 < target`. -/
lemma loop_count_covers (d target : ℚ) (hd : 0 < d) (ht : 0 < target) :
    target < ((loop_count d target : ℤ) : ℚ) * d := by
  have hq : (0 : ℚ) ≤ target / d := div_nonneg ht.le hd.le
  rw [loop_count, pyInt_nonneg _ hq]
  have hfl : target / d < ((⌊target / d⌋ + 1 : ℤ) : ℚ) := by
    push_cast
    exact Int.lt_floor_add_one _
  calc target = target / d * d := (div_mul_cancel₀ target hd.ne').symm
    _ < ((⌊target / d⌋ + 1 : ℤ) : ℚ) * d := by
        exact mul_lt_mul_of_pos_right hfl hd

/-- C5: for every source clip and target, the normalized clip exists with
duration exactly the target and dimensions exactly
`target_width × target_height`; and in particular a 4.0-second source
with a 10.0-second target is tiled into `loop_count 4 10 = 3` copies
(12.0 s) and trimmed to exactly 10.0 s. -/
theorem prepare_background_exact (W H : ℕ) (c : Clip) (target : ℚ)
    (hh : 0 < c.h) (hH : 0 < H) (hd : 0 < c.duration) (ht : 0 < target) :
    (∃ r, prepare_background W H c target = some r
       ∧ r.duration = target ∧ r.w = W ∧ r.h = H)
    ∧ loop_count 4 10 = 3
    ∧ ((loop_count 4 10 : ℤ) : ℚ) * 4 = 12
    ∧ prepare_background 1080 1920 ⟨1080, 1920, 4, 0⟩ 10
        = some ⟨1080, 1920, 10, 0⟩ := by
  refine ⟨?_, by norm_num [loop_count, pyInt], by norm_num [loop_count, pyInt],
    by norm_num [prepare_background, loop_count, pyInt, Clip.subclipped]⟩
  have hg : ¬ (c.h = 0 ∨ H = 0) := by
    rintro (h0 | h0) <;> omega
  simp only [prepare_background, hg, if_false]
  set c1 : Clip :=
    (if 1 / 100 < |(c.w : ℚ) / (c.h : ℚ) - (W : ℚ) / (H : ℚ)| then
      if (W : ℚ) / (H : ℚ) < (c.w : ℚ) / (c.h : ℚ) then
        { c with w := (pyInt ((c.h : ℚ) * ((W : ℚ) / (H : ℚ)))).toNat }
      else
        { c with h := (pyInt ((c.w : ℚ) / ((W : ℚ) / (H : ℚ)))).toNat }
    else c) with hc1
  have hdur : c1.duration = c.duration := by
    rw [hc1]
    split_ifs <;> rfl
  rw [hdur]
  rcases lt_or_le c.duration target with hcase | hcase
  · have hcover := loop_count_covers c.duration target hd ht
    rw [if_pos hcase, if_neg hd.ne', Option.some_bind, Clip.subclipped,
      if_pos ⟨le_refl (0 : ℚ), ht.le, hcover.le⟩]
    exact ⟨_, rfl, sub_zero target, rfl, rfl⟩
  · rw [if_neg (not_lt.mpr hcase), Option.some_bind, Clip.subclipped,
      if_pos ⟨le_refl (0 : ℚ), ht.le, hcase⟩]
    exact ⟨_, rfl, sub_zero target, rfl, rfl⟩

/-- Witness for C5 on a 1080x1920 source of duration 4 with target
duration 10. -/
theorem prepare_background_exact_witness :
    (0 < (⟨1080, 1920, 4, 0⟩ : Clip).h) ∧ (0 < 1920) ∧
    (0 < (⟨1080, 1920, 4, 0⟩ : Clip).duration) ∧ ((0 : ℚ) < 10) ∧
    ((∃ r, prepare_background 1080 1920 (⟨1080, 1920, 4, 0⟩ : Clip) 10 = some r
        ∧ r.duration = 10 ∧ r.w = 1080 ∧ r.h = 1920)
     ∧ loop_count 4 10 = 3
     ∧ ((loop_count 4 10 : ℤ) : ℚ) * 4 = 12
     ∧ prepare_background 1080 1920 ⟨1080, 1920, 4, 0⟩ 10
         = some ⟨1080, 1920, 10, 0⟩) :=
  ⟨by decide, by decide, by norm_num, by norm_num,
   prepare_background_exact 1080 1920 (⟨1080, 1920, 4, 0⟩ : Clip) 10
     (by decide) (by decide) (by norm_num) (by norm_num)⟩

/-- C6 counterexample: on a source strictly longer than the target
(duration 20, target 10) the normalizer returns exactly the prefix window
`[0, 10]` of the source — the start offset is 0, not a randomized value;
the embedding is a function of its inputs, so the offset is identically
zero over all outcomes. -/
theorem background_offset_always_zero_cex :
    prepare_background 1080 1920 ⟨1080, 1920, 20, 0⟩ 10
      = some ⟨1080, 1920, 10, 0⟩
    ∧ (prepare_background 1080 1920 ⟨1080, 1920, 20, 0⟩ 10).map Clip.src_start
      = some 0 := by
  have h : prepare_background 1080 1920 (⟨1080, 1920, 20, 0⟩ : Clip) 10
      = some ⟨1080, 1920, 10, 0⟩ := by
    norm_num [prepare_background, loop_count, pyInt, Clip.subclipped]
  exact ⟨h, by rw [h]; rfl⟩

/-- C6 amended: for every source clip at least as long as the target, the
normalizer always selects the prefix window: the returned clip starts at
source offset 0 (the `subclipped(0, target_duration)` call at
video_composer.py line 216) and has the target duration; no randomized
start offset is applied. -/
theorem background_prefix_window (W H : ℕ) (c : Clip) (target : ℚ)
    (hh : 0 < c.h) (hH : 0 < H) (ht : 0 ≤ target) (hlong : target ≤ c.duration)
    (hstart : c.src_start = 0) :
    ∃ r, prepare_background W H c target = some r
      ∧ r.src_start = 0 ∧ r.duration = target := by
  have hg : ¬ (c.h = 0 ∨ H = 0) := by
    rintro (h0 | h0) <;> omega
  simp only [prepare_background, hg, if_false]
  set c1 : Clip :=
    (if 1 / 100 < |(c.w : ℚ) / (c.h : ℚ) - (W : ℚ) / (H : ℚ)| then
      if (W : ℚ) / (H : ℚ) < (c.w : ℚ) / (c.h : ℚ) then
        { c with w := (pyInt ((c.h : ℚ) * ((W : ℚ) / (H : ℚ)))).toNat }
      else
        { c with h := (pyInt ((c.w : ℚ) / ((W : ℚ) / (H : ℚ)))).toNat }
    else c) with hc1
  have hdur : c1.duration = c.duration := by
    rw [hc1]
    split_ifs <;> rfl
  have hsrc : c1.src_start = c.src_start := by
    rw [hc1]
    split_ifs <;> rfl
  rw [hdur]
  rw [if_neg (not_lt.mpr hlong), Option.some_bind, Clip.subclipped,
    if_pos ⟨le_refl (0 : ℚ), ht, hlong⟩]
  refine ⟨_, rfl, ?_, sub_zero target⟩
  show c1.src_start + 0 = 0
  rw [hsrc, hstart, add_zero]

/-- Witness for the amended C6 on a 20-second source with a 10-second
target. -/
theorem background_prefix_window_witness :
    (0 < (⟨1080, 1920, 20, 0⟩ : Clip).h) ∧ (0 < 1920) ∧ ((0 : ℚ) ≤ 10) ∧
    ((10 : ℚ) ≤ (⟨1080, 1920, 20, 0⟩ : Clip).duration) ∧
    ((⟨1080, 1920, 20, 0⟩ : Clip).src_start = 0) ∧
    (∃ r, prepare_background 1080 1920 (⟨1080, 1920, 20, 0⟩ : Clip) 10 = some r
       ∧ r.src_start = 0 ∧ r.duration = 10) :=
  ⟨by decide, by decide, by norm_num, by norm_num, rfl,
   background_prefix_window 1080 1920 (⟨1080, 1920, 20, 0⟩ : Clip) 10
     (by decide) (by decide) (by norm_num) (by norm_num) rfl⟩

/-- C7 counterexample: two captions with very different texts (and hence
different rendered heights) receive the same vertical position
`1920 * 0.65 = 1248` — the position is a fixed fraction of the frame
height and does not depend on any measured text height, contradicting
`frame_height - safe_margin - text_height - padding`. -/
theorem caption_height_measured_cex :
    (add_subtitles 1920 [(0, 1, "HI"),
        (1, 2, "THIS IS A MUCH LONGER WRAPPED CAPTION")]).map SubtitleClip.pos_y
      = [1248, 1248]
    ∧ (1248 : ℚ) = (1920 : ℚ) * 65 / 100
    ∧ "HI" ≠ "THIS IS A MUCH LONGER WRAPPED CAPTION" := by
  refine ⟨?_, by norm_num, by decide⟩
  norm_num [add_subtitles]

/-- C7 amended: every caption overlay is placed at the fixed vertical
position `frame_height * 0.65`, horizontally centered, independent of the
caption text and of any measured text height. -/
theorem caption_position_fixed_fraction (height : ℕ)
    (subs : List (ℚ × ℚ × String)) (cl : SubtitleClip)
    (hc : cl ∈ add_subtitles height subs) :
    cl.pos_y = (height : ℚ) * 65 / 100 ∧ cl.pos_x = "center" := by
  simp only [add_subtitles, List.mem_map] at hc
  obtain ⟨cue, _, rfl⟩ := hc
  exact ⟨rfl, rfl⟩

/-- Witness for the amended C7 on a single caption at frame height
1920. -/
theorem caption_position_fixed_fraction_witness :
    ((⟨pyUpper "HI", 80, "center", ((1920 : ℕ) : ℚ) * 65 / 100, 0, 1 - 0⟩ :
        SubtitleClip) ∈ add_subtitles 1920 [(0, 1, "HI")])
    ∧ ((⟨pyUpper "HI", 80, "center", ((1920 : ℕ) : ℚ) * 65 / 100, 0, 1 - 0⟩ :
        SubtitleClip).pos_y = ((1920 : ℕ) : ℚ) * 65 / 100
       ∧ (⟨pyUpper "HI", 80, "center", ((1920 : ℕ) : ℚ) * 65 / 100, 0, 1 - 0⟩ :
        SubtitleClip).pos_x = "center") :=
  ⟨List.mem_singleton_self _,
   caption_position_fixed_fraction 1920 [(0, 1, "HI")] _
     (List.mem_singleton_self _)⟩

end ContentBot
